import Mathlib

/-!
Verification of `src/Native/System.Private.CoreLib.Native/pal_guid.cpp`.

The file embeds `CoreLibNative_CreateGuid` shallowly: the 16-byte GUID buffer
is a function `Fin 16 → Nat` (one cell per byte position), the host byte order
is an explicit `Endian` parameter, and the random source `uuid_generate_random`
is injected as the buffer contents the transformation starts from.  A separate
raw-memory model (`Nat`-addressed bytes) captures the three field stores for
the frame property, and a small record-layout calculator captures the
`struct _GUID` declaration.
-/

namespace PalGuid

/-- Host byte order of the machine the C code runs on. -/
inductive Endian where
  | le
  | be
deriving DecidableEq

/-- A 16-byte GUID buffer: the byte value stored at each of the 16 positions. -/
abbrev Buf := Fin 16 → Nat

/-- Every cell of the buffer holds an actual byte value (below 256). -/
abbrev ByteBuf (b : Buf) : Prop := ∀ i : Fin 16, b i < 256

/-- Modelled from the spec: the `SWAP32` byte-swap operation of `pal_endian.h` (the header is
not among the sources; the spec describes its effect as reversing the byte
order of an unsigned 32-bit integer, swapping byte positions 0↔3 and 1↔2). -/
def SWAP32 (v : Nat) : Nat :=
  v % 256 * 16777216 + v / 256 % 256 * 65536 + v / 65536 % 256 * 256 +
    v / 16777216 % 256

/-- Modelled from the spec: the `SWAP16` byte-swap operation of `pal_endian.h` (reverses the
byte order of an unsigned 16-bit integer, swapping byte positions 0↔1). -/
def SWAP16 (v : Nat) : Nat := v % 256 * 256 + v / 256 % 256

/-- Value of a 4-byte memory load: the bytes `b0..b3` sit at increasing
addresses, and the host byte order decides their significance. -/
def load32 (e : Endian) (b0 b1 b2 b3 : Nat) : Nat :=
  match e with
  | .le => b0 + 256 * b1 + 65536 * b2 + 16777216 * b3
  | .be => 16777216 * b0 + 65536 * b1 + 256 * b2 + b3

/-- Value of a 2-byte memory load under the host byte order. -/
def load16 (e : Endian) (b0 b1 : Nat) : Nat :=
  match e with
  | .le => b0 + 256 * b1
  | .be => 256 * b0 + b1

/-- Byte placed at offset `k` (0-based, increasing addresses) when the 32-bit
value `v` is stored under the host byte order. -/
def store32 (e : Endian) (v k : Nat) : Nat :=
  match e with
  | .le => v / 256 ^ k % 256
  | .be => v / 256 ^ (3 - k) % 256

/-- Byte placed at offset `k` when the 16-bit value `v` is stored under the
host byte order. -/
def store16 (e : Endian) (v k : Nat) : Nat :=
  match e with
  | .le => v / 256 ^ k % 256
  | .be => v / 256 ^ (1 - k) % 256

/-- `CoreLibNative_CreateGuid`, `pal_guid.cpp` lines 20–33, on the buffer the
random source filled.  `randomUuid` is the 16 bytes `uuid_generate_random`
wrote into `*pGuid`; the function then executes
`pGuid->Data1 = SWAP32(pGuid->Data1)`, `pGuid->Data2 = SWAP16(pGuid->Data2)`
and `pGuid->Data3 = SWAP16(pGuid->Data3)`: each field is loaded as a host
integer from its bytes (Data1 at offsets 0–3, Data2 at 4–5, Data3 at 6–7),
value-swapped, and stored back; `Data4` at offsets 8–15 is not assigned. -/
def CoreLibNative_CreateGuid (e : Endian) (randomUuid : Buf) : Buf := fun i =>
  if i.val < 4 then
    store32 e
      (SWAP32 (load32 e (randomUuid 0) (randomUuid 1) (randomUuid 2) (randomUuid 3)))
      i.val
  else if i.val < 6 then
    store16 e (SWAP16 (load16 e (randomUuid 4) (randomUuid 5))) (i.val - 4)
  else if i.val < 8 then
    store16 e (SWAP16 (load16 e (randomUuid 6) (randomUuid 7))) (i.val - 6)
  else randomUuid i

/-- The byte-position permutation named by the spec (§4.1 steps 2–5, §8):
positions 0↔3, 1↔2, 4↔5, 6↔7 swapped, positions 8–15 fixed. -/
def specBytePerm (i : Fin 16) : Fin 16 :=
  if i.val = 0 then 3
  else if i.val = 1 then 2
  else if i.val = 2 then 1
  else if i.val = 3 then 0
  else if i.val = 4 then 5
  else if i.val = 5 then 4
  else if i.val = 6 then 7
  else if i.val = 7 then 6
  else i

/-- The byte-position formulation of the transformation, as the spec words it:
reverse the bytes at positions 0–3, 4–5 and 6–7, leave 8–15 alone. -/
def specByteReversal (b : Buf) : Buf := fun i => b (specBytePerm i)

/-- The four fields of the `GUID` structure as values. -/
@[ext]
structure GuidFields where
  Data1 : Nat
  Data2 : Nat
  Data3 : Nat
  Data4 : Fin 8 → Nat

/-- Read the 16 buffer bytes as the four GUID fields, interpreting the integer
fields with the given byte order: `Data1` from bytes 0–3, `Data2` from 4–5,
`Data3` from 6–7, `Data4` as the raw bytes 8–15.  `readGuid .be` is the
RFC 4122 field layout; `readGuid .le` is the little-endian GUID layout. -/
def readGuid (e : Endian) (b : Buf) : GuidFields where
  Data1 := load32 e (b 0) (b 1) (b 2) (b 3)
  Data2 := load16 e (b 4) (b 5)
  Data3 := load16 e (b 6) (b 7)
  Data4 := fun j => b ⟨8 + j.val, by omega⟩

/-- The sample 16-byte input of the spec (§8, concrete example). -/
def sampleIn : Buf := fun i =>
  [0x01, 0x02, 0x03, 0x04, 0x05, 0x06, 0x07, 0x08,
   0x09, 0x0A, 0x0B, 0x0C, 0x0D, 0x0E, 0x0F, 0x10].getD i.val 0

/-- The expected output for `sampleIn` (§8, concrete example). -/
def sampleOut : Buf := fun i =>
  [0x04, 0x03, 0x02, 0x01, 0x06, 0x05, 0x08, 0x07,
   0x09, 0x0A, 0x0B, 0x0C, 0x0D, 0x0E, 0x0F, 0x10].getD i.val 0

/-- Helper: `SWAP32` reverses the bytes of a 32-bit value given by its four
bytes in little-endian significance order. -/
theorem swap32_bytes (x0 x1 x2 x3 : Nat) (h0 : x0 < 256) (h1 : x1 < 256)
    (h2 : x2 < 256) (h3 : x3 < 256) :
    SWAP32 (x0 + 256 * x1 + 65536 * x2 + 16777216 * x3) =
      x3 + 256 * x2 + 65536 * x1 + 16777216 * x0 := by
  unfold SWAP32
  have a0 : (x0 + 256 * x1 + 65536 * x2 + 16777216 * x3) % 256 = x0 := by omega
  have a1 : (x0 + 256 * x1 + 65536 * x2 + 16777216 * x3) / 256 % 256 = x1 := by
    omega
  have a2 : (x0 + 256 * x1 + 65536 * x2 + 16777216 * x3) / 65536 % 256 = x2 := by
    omega
  have a3 : (x0 + 256 * x1 + 65536 * x2 + 16777216 * x3) / 16777216 % 256 = x3 := by
    omega
  rw [a0, a1, a2, a3]
  ring

/-- Helper: `SWAP16` swaps the two bytes of a 16-bit value. -/
theorem swap16_bytes (x0 x1 : Nat) (h0 : x0 < 256) (h1 : x1 < 256) :
    SWAP16 (x0 + 256 * x1) = x1 + 256 * x0 := by
  unfold SWAP16
  have a0 : (x0 + 256 * x1) % 256 = x0 := by omega
  have a1 : (x0 + 256 * x1) / 256 % 256 = x1 := by omega
  rw [a0, a1]
  ring

/-- Helper: the bytes a little-endian 32-bit store lays down, given the
value's little-endian byte decomposition. -/
theorem store32_le_bytes (x0 x1 x2 x3 : Nat) (h0 : x0 < 256) (h1 : x1 < 256)
    (h2 : x2 < 256) (h3 : x3 < 256) :
    store32 .le (x0 + 256 * x1 + 65536 * x2 + 16777216 * x3) 0 = x0 ∧
    store32 .le (x0 + 256 * x1 + 65536 * x2 + 16777216 * x3) 1 = x1 ∧
    store32 .le (x0 + 256 * x1 + 65536 * x2 + 16777216 * x3) 2 = x2 ∧
    store32 .le (x0 + 256 * x1 + 65536 * x2 + 16777216 * x3) 3 = x3 := by
  refine ⟨?_, ?_, ?_, ?_⟩ <;> norm_num [store32] <;> omega

/-- Helper: the bytes a big-endian 32-bit store lays down, given the value's
little-endian byte decomposition. -/
theorem store32_be_bytes (x0 x1 x2 x3 : Nat) (h0 : x0 < 256) (h1 : x1 < 256)
    (h2 : x2 < 256) (h3 : x3 < 256) :
    store32 .be (x0 + 256 * x1 + 65536 * x2 + 16777216 * x3) 0 = x3 ∧
    store32 .be (x0 + 256 * x1 + 65536 * x2 + 16777216 * x3) 1 = x2 ∧
    store32 .be (x0 + 256 * x1 + 65536 * x2 + 16777216 * x3) 2 = x1 ∧
    store32 .be (x0 + 256 * x1 + 65536 * x2 + 16777216 * x3) 3 = x0 := by
  refine ⟨?_, ?_, ?_, ?_⟩ <;> norm_num [store32] <;> omega

/-- Helper: the bytes a little-endian 16-bit store lays down. -/
theorem store16_le_bytes (x0 x1 : Nat) (h0 : x0 < 256) (h1 : x1 < 256) :
    store16 .le (x0 + 256 * x1) 0 = x0 ∧ store16 .le (x0 + 256 * x1) 1 = x1 := by
  refine ⟨?_, ?_⟩ <;> norm_num [store16] <;> omega

/-- Helper: the bytes a big-endian 16-bit store lays down. -/
theorem store16_be_bytes (x0 x1 : Nat) (h0 : x0 < 256) (h1 : x1 < 256) :
    store16 .be (x0 + 256 * x1) 0 = x1 ∧ store16 .be (x0 + 256 * x1) 1 = x0 := by
  refine ⟨?_, ?_⟩ <;> norm_num [store16] <;> omega

/-- Helper: load a 32-bit field, `SWAP32` it, store it back — the four bytes
come out reversed, on either host byte order. -/
theorem fix32 (e : Endian) (x0 x1 x2 x3 : Nat) (h0 : x0 < 256) (h1 : x1 < 256)
    (h2 : x2 < 256) (h3 : x3 < 256) :
    store32 e (SWAP32 (load32 e x0 x1 x2 x3)) 0 = x3 ∧
    store32 e (SWAP32 (load32 e x0 x1 x2 x3)) 1 = x2 ∧
    store32 e (SWAP32 (load32 e x0 x1 x2 x3)) 2 = x1 ∧
    store32 e (SWAP32 (load32 e x0 x1 x2 x3)) 3 = x0 := by
  cases e with
  | le =>
    have hv : SWAP32 (load32 .le x0 x1 x2 x3) =
        x3 + 256 * x2 + 65536 * x1 + 16777216 * x0 := by
      simpa [load32] using swap32_bytes x0 x1 x2 x3 h0 h1 h2 h3
    rw [hv]
    exact store32_le_bytes x3 x2 x1 x0 h3 h2 h1 h0
  | be =>
    have hload : load32 .be x0 x1 x2 x3 =
        x3 + 256 * x2 + 65536 * x1 + 16777216 * x0 := by
      simp [load32]; ring
    have hv : SWAP32 (load32 .be x0 x1 x2 x3) =
        x0 + 256 * x1 + 65536 * x2 + 16777216 * x3 := by
      rw [hload]; exact swap32_bytes x3 x2 x1 x0 h3 h2 h1 h0
    rw [hv]
    exact store32_be_bytes x0 x1 x2 x3 h0 h1 h2 h3

/-- Helper: load a 16-bit field, `SWAP16` it, store it back — the two bytes
come out swapped, on either host byte order. -/
theorem fix16 (e : Endian) (x0 x1 : Nat) (h0 : x0 < 256) (h1 : x1 < 256) :
    store16 e (SWAP16 (load16 e x0 x1)) 0 = x1 ∧
    store16 e (SWAP16 (load16 e x0 x1)) 1 = x0 := by
  cases e with
  | le =>
    have hv : SWAP16 (load16 .le x0 x1) = x1 + 256 * x0 := by
      simpa [load16] using swap16_bytes x0 x1 h0 h1
    rw [hv]
    exact store16_le_bytes x1 x0 h1 h0
  | be =>
    have hload : load16 .be x0 x1 = x1 + 256 * x0 := by
      simp [load16]; ring
    have hv : SWAP16 (load16 .be x0 x1) = x0 + 256 * x1 := by
      rw [hload]; exact swap16_bytes x1 x0 h1 h0
    rw [hv]
    exact store16_be_bytes x0 x1 h0 h1

set_option maxRecDepth 8192 in
/-- Helper: on byte-valued buffers, the value-level swaps of the source equal
the byte-position reversal of the spec, on any host byte order. -/
theorem createGuid_eq_specByteReversal (e : Endian) (b : Buf) (hb : ByteBuf b) :
    CoreLibNative_CreateGuid e b = specByteReversal b := by
  have F32 := fix32 e (b 0) (b 1) (b 2) (b 3) (hb 0) (hb 1) (hb 2) (hb 3)
  have F16a := fix16 e (b 4) (b 5) (hb 4) (hb 5)
  have F16b := fix16 e (b 6) (b 7) (hb 6) (hb 7)
  funext i
  fin_cases i <;>
    simp only [CoreLibNative_CreateGuid, specByteReversal, specBytePerm] <;>
    norm_num <;>
    first
      | rfl
      | exact F32.1
      | exact F32.2.1
      | exact F32.2.2.1
      | exact F32.2.2.2
      | exact F16a.1
      | exact F16a.2
      | exact F16b.1
      | exact F16b.2

/-- Helper: the byte-position permutation is its own inverse. -/
theorem specBytePerm_sq : ∀ i : Fin 16, specBytePerm (specBytePerm i) = i := by
  decide

/-- Helper: the byte-position reversal is its own inverse. -/
theorem specByteReversal_sq (b : Buf) :
    specByteReversal (specByteReversal b) = b := by
  funext i
  exact congrArg b (specBytePerm_sq i)

/-- Helper: positions 8–15 are fixed points of the byte-position permutation. -/
theorem specBytePerm_ge8 (i : Fin 16) (h : 8 ≤ i.val) : specBytePerm i = i := by
  unfold specBytePerm
  split_ifs <;> first | rfl | omega

/-- C1: for every 16-byte input filled by the random source, the output of
`CoreLibNative_CreateGuid` has bytes 0–3 equal to input bytes 0–3 reversed,
bytes 4–5 and 6–7 equal to the respective input pairs reversed, and bytes
8–15 equal to the input bytes 8–15, on either host byte order. -/
theorem createGuid_reverses_field_bytes (e : Endian) (b : Buf) (hb : ByteBuf b) :
    CoreLibNative_CreateGuid e b 0 = b 3 ∧
    CoreLibNative_CreateGuid e b 1 = b 2 ∧
    CoreLibNative_CreateGuid e b 2 = b 1 ∧
    CoreLibNative_CreateGuid e b 3 = b 0 ∧
    CoreLibNative_CreateGuid e b 4 = b 5 ∧
    CoreLibNative_CreateGuid e b 5 = b 4 ∧
    CoreLibNative_CreateGuid e b 6 = b 7 ∧
    CoreLibNative_CreateGuid e b 7 = b 6 ∧
    ∀ i : Fin 16, 8 ≤ i.val → CoreLibNative_CreateGuid e b i = b i := by
  rw [createGuid_eq_specByteReversal e b hb]
  refine ⟨rfl, rfl, rfl, rfl, rfl, rfl, rfl, rfl, ?_⟩
  intro i hi
  exact congrArg b (specBytePerm_ge8 i hi)

/-- Witness for C1 at the concrete sample input of the spec. -/
theorem createGuid_reverses_field_bytes_w :
    CoreLibNative_CreateGuid .le sampleIn 0 = sampleIn 3 ∧
    CoreLibNative_CreateGuid .le sampleIn 1 = sampleIn 2 ∧
    CoreLibNative_CreateGuid .le sampleIn 2 = sampleIn 1 ∧
    CoreLibNative_CreateGuid .le sampleIn 3 = sampleIn 0 ∧
    CoreLibNative_CreateGuid .le sampleIn 4 = sampleIn 5 ∧
    CoreLibNative_CreateGuid .le sampleIn 5 = sampleIn 4 ∧
    CoreLibNative_CreateGuid .le sampleIn 6 = sampleIn 7 ∧
    CoreLibNative_CreateGuid .le sampleIn 7 = sampleIn 6 ∧
    ∀ i : Fin 16, 8 ≤ i.val → CoreLibNative_CreateGuid .le sampleIn i = sampleIn i :=
  createGuid_reverses_field_bytes .le sampleIn (by decide)

/-- C2: reading the transformed buffer with the little-endian field layout
gives exactly the field values of the original buffer read with the RFC 4122
big-endian layout, so the GUID value (its version and variant bits included)
is preserved; only the in-memory byte arrangement changes. -/
theorem createGuid_preserves_guid_value (e : Endian) (b : Buf) (hb : ByteBuf b) :
    readGuid .le (CoreLibNative_CreateGuid e b) = readGuid .be b := by
  rw [createGuid_eq_specByteReversal e b hb]
  unfold readGuid
  refine GuidFields.ext ?_ ?_ ?_ ?_
  · show load32 .le (b 3) (b 2) (b 1) (b 0) = load32 .be (b 0) (b 1) (b 2) (b 3)
    simp only [load32]
    ring
  · show load16 .le (b 5) (b 4) = load16 .be (b 4) (b 5)
    simp only [load16]
    ring
  · show load16 .le (b 7) (b 6) = load16 .be (b 6) (b 7)
    simp only [load16]
    ring
  · funext j
    exact congrArg b (specBytePerm_ge8 _ (Nat.le_add_right 8 j.val))

/-- Witness for C2 at the concrete sample input of the spec. -/
theorem createGuid_preserves_guid_value_w :
    readGuid .le (CoreLibNative_CreateGuid .le sampleIn) = readGuid .be sampleIn :=
  createGuid_preserves_guid_value .le sampleIn (by decide)

/-- C3: bytes 8–15 (the `Data4` field) are returned exactly as the random
source wrote them: no assignment of `CoreLibNative_CreateGuid` after the
random-source call lands on those positions (this needs no bound on the byte
values and holds on either host byte order). -/
theorem createGuid_Data4_untouched (e : Endian) (b : Buf) (i : Fin 16)
    (h : 8 ≤ i.val) : CoreLibNative_CreateGuid e b i = b i := by
  unfold CoreLibNative_CreateGuid
  split_ifs <;> first | rfl | omega

/-- Witness for C3 at the concrete sample input, position 8. -/
theorem createGuid_Data4_untouched_w :
    CoreLibNative_CreateGuid .le sampleIn 8 = sampleIn 8 :=
  createGuid_Data4_untouched .le sampleIn 8 (by decide)

/-- C4: the byte-order-reversal transformation (reverse bytes 0–3, 4–5, 6–7,
leave 8–15) is an involution: applied twice it returns the original 16-byte
array; consequently applying the transformation of `CoreLibNative_CreateGuid`
twice to a byte-valued buffer also returns the original buffer. -/
theorem byteReversal_involutive :
    (∀ b : Buf, specByteReversal (specByteReversal b) = b) ∧
    (∀ (e : Endian) (b : Buf), ByteBuf b →
      CoreLibNative_CreateGuid e (CoreLibNative_CreateGuid e b) = b) := by
  refine ⟨specByteReversal_sq, ?_⟩
  intro e b hb
  have hb2 : ByteBuf (CoreLibNative_CreateGuid e b) := by
    rw [createGuid_eq_specByteReversal e b hb]
    intro i
    exact hb (specBytePerm i)
  rw [createGuid_eq_specByteReversal e _ hb2,
    createGuid_eq_specByteReversal e b hb, specByteReversal_sq b]

/-- C5: on the concrete input of the spec (bytes 0x01..0x10 substituted for
the random source), the transformation produces exactly the expected output,
on either host byte order. -/
theorem createGuid_sample_example :
    CoreLibNative_CreateGuid .le sampleIn = sampleOut ∧
    CoreLibNative_CreateGuid .be sampleIn = sampleOut := by
  constructor <;> funext i <;> fin_cases i <;> rfl

/-- Build-time configuration of `pal_guid.cpp`: with `HAVE_LIBUUID_H` the
translation unit compiles to the generate-and-fix-up function; without it the
`#error` directive stops the build, so no function exists at all (`none`),
rather than some fallback behavior. -/
def CoreLibNative_CreateGuid_build (HAVE_LIBUUID_H : Bool) :
    Option (Endian → Buf → Buf) :=
  if HAVE_LIBUUID_H then some CoreLibNative_CreateGuid else none

/-- C6: when no random-UUID source is available the component fails at build
time — the built artifact is `none`, there is no fallback entropy path; in a
successfully built configuration the function is total (no runtime error
return), is exactly the random-source call followed by the byte-order fix-up,
and never silently zeroes a nonzero random buffer. -/
theorem createGuid_build_behavior :
    CoreLibNative_CreateGuid_build false = none ∧
    CoreLibNative_CreateGuid_build true = some CoreLibNative_CreateGuid ∧
    (∀ (e : Endian) (r : Buf), ByteBuf r → (∃ i, r i ≠ 0) →
      ∃ i, CoreLibNative_CreateGuid e r i ≠ 0) := by
  refine ⟨rfl, rfl, ?_⟩
  intro e r hr hex
  obtain ⟨j, hj⟩ := hex
  refine ⟨specBytePerm j, ?_⟩
  rw [createGuid_eq_specByteReversal e r hr]
  have hval : specByteReversal r (specBytePerm j) = r j :=
    congrArg r (specBytePerm_sq j)
  rw [hval]
  exact hj

/-- Byte-addressed memory: the byte value at each address. -/
abbrev Mem := Nat → Nat

/-- Store `len` bytes at address `addr`: inside the window the byte at offset
`a - addr` is given by `f`, every other address keeps its old content. -/
def storeBytes (m : Mem) (addr len : Nat) (f : Nat → Nat) : Mem := fun a =>
  if addr ≤ a ∧ a < addr + len then f (a - addr) else m a

/-- 32-bit load from memory at address `p` under the host byte order. -/
def load32mem (e : Endian) (m : Mem) (p : Nat) : Nat :=
  load32 e (m p) (m (p + 1)) (m (p + 2)) (m (p + 3))

/-- 16-bit load from memory at address `p` under the host byte order. -/
def load16mem (e : Endian) (m : Mem) (p : Nat) : Nat :=
  load16 e (m p) (m (p + 1))

/-- The three field assignments of `CoreLibNative_CreateGuid` on raw memory:
`pGuid` is the address of the caller-supplied structure and `m` the memory
state right after `uuid_generate_random` filled its 16 bytes.  `Data1` sits at
`pGuid`, `Data2` at `pGuid + 4`, `Data3` at `pGuid + 6`; each assignment loads
the field, swaps the value and stores it back in place. -/
def CoreLibNative_CreateGuid_mem (e : Endian) (pGuid : Nat) (m : Mem) : Mem :=
  let m1 := storeBytes m pGuid 4 (store32 e (SWAP32 (load32mem e m pGuid)))
  let m2 := storeBytes m1 (pGuid + 4) 2
    (store16 e (SWAP16 (load16mem e m1 (pGuid + 4))))
  storeBytes m2 (pGuid + 6) 2 (store16 e (SWAP16 (load16mem e m2 (pGuid + 6))))

/-- Helper: a bounded store leaves every address outside its window alone. -/
theorem storeBytes_outside (m : Mem) (addr len : Nat) (f : Nat → Nat) (a : Nat)
    (h : a < addr ∨ addr + len ≤ a) : storeBytes m addr len f a = m a := by
  unfold storeBytes
  have hc : ¬(addr ≤ a ∧ a < addr + len) := by omega
  rw [if_neg hc]

/-- C7: every write of `CoreLibNative_CreateGuid` after the random-source call
lands inside the 16-byte destination structure: any address below `pGuid` or
at `pGuid + 16` or beyond holds exactly the byte it held before the three
field assignments, so no global state outside the buffer is touched. -/
theorem createGuid_writes_stay_in_buffer (e : Endian) (pGuid : Nat) (m : Mem)
    (a : Nat) (h : a < pGuid ∨ pGuid + 16 ≤ a) :
    CoreLibNative_CreateGuid_mem e pGuid m a = m a := by
  unfold CoreLibNative_CreateGuid_mem
  rw [storeBytes_outside _ (pGuid + 6) 2 _ a (by omega)]
  rw [storeBytes_outside _ (pGuid + 4) 2 _ a (by omega)]
  rw [storeBytes_outside _ pGuid 4 _ a (by omega)]

/-- Witness for C7: with the structure at address 0 and identity-patterned
memory, the byte at address 16 (just past the buffer) is unchanged. -/
theorem createGuid_writes_stay_in_buffer_w :
    CoreLibNative_CreateGuid_mem .le 0 (fun x => x) 16 = (fun x => x : Mem) 16 :=
  createGuid_writes_stay_in_buffer .le 0 (fun x => x) 16 (Or.inr (by omega))

/-- C8: the transformation is the fixed byte-position permutation 0↔3, 1↔2,
4↔5, 6↔7 with positions 8–15 fixed; that permutation is bijective, so on
byte-valued buffers every output byte is an input byte and two distinct
random-source outputs are never mapped to the same GUID. -/
theorem createGuid_is_byte_permutation :
    Function.Bijective specBytePerm ∧
    (∀ (e : Endian) (b : Buf), ByteBuf b →
      ∀ i : Fin 16, CoreLibNative_CreateGuid e b i = b (specBytePerm i)) ∧
    (∀ (e : Endian) (b c : Buf), ByteBuf b → ByteBuf c →
      CoreLibNative_CreateGuid e b = CoreLibNative_CreateGuid e c → b = c) := by
  refine ⟨by decide, ?_, ?_⟩
  · intro e b hb i
    rw [createGuid_eq_specByteReversal e b hb]
    rfl
  · intro e b c hb hc h
    have h2 : specByteReversal b = specByteReversal c := by
      rw [← createGuid_eq_specByteReversal e b hb,
        ← createGuid_eq_specByteReversal e c hc, h]
    calc b = specByteReversal (specByteReversal b) :=
          (specByteReversal_sq b).symm
      _ = specByteReversal (specByteReversal c) := by rw [h2]
      _ = c := specByteReversal_sq c

/-- Round an offset up to the next multiple of an alignment. -/
def alignUp (off al : Nat) : Nat := (off + al - 1) / al * al

/-- Offsets the C struct layout rule assigns to a list of (size, alignment)
fields laid out from a starting offset. -/
def fieldOffsets : List (Nat × Nat) → Nat → List Nat
  | [], _ => []
  | (sz, al) :: rest, off => alignUp off al :: fieldOffsets rest (alignUp off al + sz)

/-- End offset after laying out the fields from a starting offset. -/
def structEnd : List (Nat × Nat) → Nat → Nat
  | [], off => off
  | (sz, al) :: rest, off => structEnd rest (alignUp off al + sz)

/-- Strictest alignment among the fields (at least 1). -/
def maxAlign (fields : List (Nat × Nat)) : Nat :=
  fields.foldr (fun f acc => max f.2 acc) 1

/-- Total size of the struct: the end offset rounded up to the struct
alignment. -/
def structSize (fields : List (Nat × Nat)) : Nat :=
  alignUp (structEnd fields 0) (maxAlign fields)

/-- The field list of `struct _GUID` (`pal_guid.cpp` lines 13–18): (size,
alignment) of `uint32_t Data1`, `uint16_t Data2`, `uint16_t Data3` and
`uint8_t Data4[8]` under the LP64 ABI the comment on `Data1` refers to. -/
def GUID_fields : List (Nat × Nat) := [(4, 4), (2, 2), (2, 2), (8, 1)]

/-- C9: the `GUID` structure is exactly 16 bytes with no padding — the fields
sit at offsets 0, 4, 6 and 8, the struct size is 16, and the field sizes sum
to the struct size, so overlaying a 16-byte `uuid_t` fills precisely the four
fields and nothing else. -/
theorem GUID_layout_packed :
    fieldOffsets GUID_fields 0 = [0, 4, 6, 8] ∧
    structSize GUID_fields = 16 ∧
    (GUID_fields.map Prod.fst).sum = structSize GUID_fields := by
  decide

/-- C10: the source's integer-value formulation (load `Data1`/`Data2`/`Data3`
as host integers, `SWAP32`/`SWAP16` the values, store them back) equals the
spec's byte-position formulation (reverse the in-memory bytes at positions
0–3, 4–5 and 6–7) on every byte-valued input and on both host byte orders. -/
theorem createGuid_refines_spec_reversal (e : Endian) (b : Buf)
    (hb : ByteBuf b) : CoreLibNative_CreateGuid e b = specByteReversal b :=
  createGuid_eq_specByteReversal e b hb

/-- Witness for C10 at the concrete sample input, big-endian host. -/
theorem createGuid_refines_spec_reversal_w :
    CoreLibNative_CreateGuid .be sampleIn = specByteReversal sampleIn :=
  createGuid_refines_spec_reversal .be sampleIn (by decide)

end PalGuid
